import Mathlib

/-
  Shallow embedding of src/fake_nvml.c: a fake NVML (NVIDIA Management
  Library) shim.  Machine integers are modelled as Nat/Int; C strings are
  byte lists (no terminator stored; a byte value 0 inside the list encodes
  an embedded NUL written by strncpy padding); out-pointers are modelled by
  an explicit `Ptr` type with a null case, and every store through an
  out-pointer is recorded as a (pointer, value) write event.  The
  FAKE_NVML_LOG environment toggle is a Bool argument to every entry point,
  and trace emission is a list of strings in the result.
-/

namespace FakeNvml

/-- Error codes of nvmlReturn_enum, as declared in fake_nvml.c. -/
inductive NvmlReturn where
  | success
  | errorUninitialized
  | errorInvalidArgument
  | errorNotSupported
  | errorNoPermission
  | errorAlreadyInitialized
  | errorNotFound
  | errorInsufficientSize
  | errorInsufficientPower
  | errorDriverNotLoaded
  | errorTimeout
  | errorFunctionNotFound
  | errorUnknown
  deriving DecidableEq, Repr

/-- The integer value each enum constant carries in the C source. -/
def NvmlReturn.code : NvmlReturn → Int
  | .success => 0
  | .errorUninitialized => 1
  | .errorInvalidArgument => 2
  | .errorNotSupported => 3
  | .errorNoPermission => 4
  | .errorAlreadyInitialized => 5
  | .errorNotFound => 6
  | .errorInsufficientSize => 7
  | .errorInsufficientPower => 8
  | .errorDriverNotLoaded => 9
  | .errorTimeout => 10
  | .errorFunctionNotFound => 13
  | .errorUnknown => 999

/-- A C object pointer: either NULL or a (abstract) non-null address. -/
inductive Ptr where
  | null
  | valid (addr : Nat)
  deriving DecidableEq, Repr

/-- Buffer-size constants from fake_nvml.c. -/
def NVML_DEVICE_NAME_BUFFER_SIZE : Nat := 64

def NVML_DEVICE_UUID_BUFFER_SIZE : Nat := 80

def NVML_SYSTEM_DRIVER_VERSION_BUFFER_SIZE : Nat := 80

def NVML_DEVICE_PCI_BUS_ID_BUFFER_SIZE : Nat := 32

/-- Fake GPU constants from fake_nvml.c. -/
def FAKE_GPU_COUNT : Nat := 4

def FAKE_GPU_NAME : String := "NVIDIA Tesla T4"

def FAKE_DRIVER_VERSION : String := "535.104.05"

def FAKE_CUDA_VERSION : Int := 12020

def NVML_BRAND_TESLA : Nat := 2

def NVML_FEATURE_DISABLED : Nat := 0

/-- Byte content of a source-code string literal (no terminator). -/
def strBytes (s : String) : List Nat := s.data.map Char.toNat

/-- C strncpy(dst, src, n) where src is a NUL-free C string: writes exactly
n bytes into dst, namely the first min(|src|, n) source bytes followed by
zero padding.  No terminator is written when |src| >= n. -/
def strncpy (src : List Nat) (n : Nat) : List Nat :=
  (List.range n).map (fun i => src.getD i 0)

/-- C snprintf(dst, size, ...) truncation: the stored C string is the first
size - 1 bytes of the formatted text (always terminated inside dst). -/
def snprintfStr (size : Nat) (src : List Nat) : List Nat :=
  src.take (size - 1)

/-- nvmlPciInfo_st. -/
structure NvmlPciInfo where
  busId : List Nat
  domain : Nat
  bus : Nat
  device : Nat
  pciDeviceId : Nat
  pciSubSystemId : Nat
  deriving DecidableEq, Repr

/-- fakeGpu_t: one record of the static registry g_fake_gpus.  The handle
field stores the address of the record itself; we abstract the address of
g_fake_gpus[i] as the number i. -/
structure FakeGpu where
  index : Nat
  name : List Nat
  uuid : List Nat
  pci : NvmlPciInfo
  handle : Nat
  deriving DecidableEq, Repr

/-- A zero-initialized fakeGpu_t record (C static storage before nvmlInit_v2
runs): every integer field 0, every string field empty. -/
def zeroGpu : FakeGpu :=
  { index := 0
  , name := []
  , uuid := []
  , pci := { busId := [], domain := 0, bus := 0, device := 0
           , pciDeviceId := 0, pciSubSystemId := 0 }
  , handle := 0 }

/-- The global mutable state of the shim: the static registry g_fake_gpus
and the flag g_initialized. -/
structure NvmlState where
  g_fake_gpus : List FakeGpu
  g_initialized : Bool
  deriving DecidableEq, Repr

/-- Process start state: zeroed static array, flag false. -/
def initialState : NvmlState :=
  { g_fake_gpus := List.replicate FAKE_GPU_COUNT zeroGpu
  , g_initialized := false }

/-- A value stored through an out-pointer. -/
inductive Val where
  | int (v : Int)
  | uint (v : Nat)
  | bytes (b : List Nat)
  | pciInfo (p : NvmlPciInfo)
  | handle (h : Nat)
  deriving DecidableEq, Repr

/-- Result of one shim entry point: the nvmlReturn_t value, the stores made
through out-pointers (in program order), the state after the call, and the
trace lines emitted to stderr. -/
structure OpOut where
  ret : NvmlReturn
  writes : List (Ptr × Val)
  state : NvmlState
  trace : List String
  deriving DecidableEq, Repr

/-- Observable outcome of a call: everything except the stderr trace — the
return code, the stores made through out-pointers, and the new state. -/
def obs (o : OpOut) : NvmlReturn × List (Ptr × Val) × NvmlState :=
  (o.ret, o.writes, o.state)

/-- The LOG macro: emits one line iff the FAKE_NVML_LOG toggle is set.  The
timestamp and pid of the real line are ambient-environment data outside the
model; the operation name and message are kept. -/
def LOG (log : Bool) (funcName msg : String) : List String :=
  if log then ["[FAKE-GPU " ++ funcName ++ "] " ++ msg] else []

/-- Registry record built for slot i by the loop body of nvmlInit_v2. -/
def mkFakeGpu (i : Nat) : FakeGpu :=
  { index := i
  , name := snprintfStr NVML_DEVICE_NAME_BUFFER_SIZE (strBytes FAKE_GPU_NAME)
  , uuid := snprintfStr NVML_DEVICE_UUID_BUFFER_SIZE
      (strBytes ("GPU-" ++ toString i ++ "-FAKE-UUID"))
  , pci := { busId := snprintfStr NVML_DEVICE_PCI_BUS_ID_BUFFER_SIZE
               (strBytes ("00000000:0" ++ toString (i + 1) ++ ":00.0"))
           , domain := 0
           , bus := i + 1
           , device := 0
           , pciDeviceId := 0x1EB8
           , pciSubSystemId := 0x12A210DE }
  , handle := i }

/-- Registry contents after the population loop of nvmlInit_v2. -/
def populatedRegistry : List FakeGpu :=
  (List.range FAKE_GPU_COUNT).map mkFakeGpu

/-- nvmlInit_v2: fails with ALREADY_INITIALIZED when the flag is set,
otherwise repopulates the registry deterministically and sets the flag. -/
def nvmlInit_v2 (log : Bool) (s : NvmlState) : OpOut :=
  let t := LOG log "nvmlInit_v2" "enter"
  if s.g_initialized then
    { ret := .errorAlreadyInitialized, writes := [], state := s, trace := t }
  else
    { ret := .success
    , writes := []
    , state := { g_fake_gpus := populatedRegistry, g_initialized := true }
    , trace := t ++ LOG log "nvmlInit_v2" "exit" }

/-- nvmlShutdown: fails with UNINITIALIZED when the flag is clear, otherwise
clears the flag.  The static registry array is left in place. -/
def nvmlShutdown (log : Bool) (s : NvmlState) : OpOut :=
  let t := LOG log "nvmlShutdown" "enter"
  if !s.g_initialized then
    { ret := .errorUninitialized, writes := [], state := s, trace := t }
  else
    { ret := .success
    , writes := []
    , state := { s with g_initialized := false }
    , trace := t ++ LOG log "nvmlShutdown" "exit" }

/-- The switch statement of nvmlErrorString, over the integer value of the
argument.  Cases 8 (INSUFFICIENT_POWER), 10 (TIMEOUT) and 999 (UNKNOWN)
have no label in the source and fall to the default. -/
def errorStringSwitch (result : Int) : String :=
  if result = 0 then "Success"
  else if result = 1 then "Uninitialized"
  else if result = 2 then "Invalid Argument"
  else if result = 3 then "Not Supported"
  else if result = 4 then "No Permission"
  else if result = 5 then "Already Initialized"
  else if result = 6 then "Not Found"
  else if result = 7 then "Insufficient Size"
  else if result = 9 then "Driver Not Loaded"
  else if result = 13 then "Function Not Found"
  else "Unknown Error"

/-- nvmlErrorString: consults no state, returns the switch result plus its
trace lines. -/
def nvmlErrorString (log : Bool) (result : Int) : String × List String :=
  ( errorStringSwitch result
  , LOG log "nvmlErrorString" "enter"
      ++ LOG log "nvmlErrorString" "Translating error code" )

/-- Dereference a device handle: the address of g_fake_gpus[i] is abstracted
as i, so a handle reads that slot of the static array. -/
def derefGpu (s : NvmlState) (device : Nat) : FakeGpu :=
  s.g_fake_gpus.getD device zeroGpu

/-- nvmlSystemGetDriverVersion: strncpy of FAKE_DRIVER_VERSION into the
caller buffer, with no null check on the buffer pointer. -/
def nvmlSystemGetDriverVersion (log : Bool) (s : NvmlState)
    (version : Ptr) (length : Nat) : OpOut :=
  let t := LOG log "nvmlSystemGetDriverVersion" "enter"
  if !s.g_initialized then
    { ret := .errorUninitialized, writes := [], state := s, trace := t }
  else
    { ret := .success
    , writes := [(version, .bytes (strncpy (strBytes FAKE_DRIVER_VERSION) length))]
    , state := s
    , trace := t ++ LOG log "nvmlSystemGetDriverVersion" "exit" }

/-- nvmlSystemGetCudaDriverVersion: unconditional store of the fixed version
integer, no null check. -/
def nvmlSystemGetCudaDriverVersion (log : Bool) (s : NvmlState)
    (cudaDriverVersion : Ptr) : OpOut :=
  let t := LOG log "nvmlSystemGetCudaDriverVersion" "enter"
  if !s.g_initialized then
    { ret := .errorUninitialized, writes := [], state := s, trace := t }
  else
    { ret := .success
    , writes := [(cudaDriverVersion, .int FAKE_CUDA_VERSION)]
    , state := s
    , trace := t ++ LOG log "nvmlSystemGetCudaDriverVersion" "exit" }

/-- nvmlDeviceGetCount_v2: unconditional store of FAKE_GPU_COUNT, no null
check. -/
def nvmlDeviceGetCount_v2 (log : Bool) (s : NvmlState)
    (deviceCount : Ptr) : OpOut :=
  let t := LOG log "nvmlDeviceGetCount_v2" "enter"
  if !s.g_initialized then
    { ret := .errorUninitialized, writes := [], state := s, trace := t }
  else
    { ret := .success
    , writes := [(deviceCount, .uint FAKE_GPU_COUNT)]
    , state := s
    , trace := t ++ LOG log "nvmlDeviceGetCount_v2" "exit" }

/-- nvmlDeviceGetHandleByIndex_v2: index is an unsigned int, so the single
comparison index >= FAKE_GPU_COUNT also rejects every negative argument in
its unsigned encoding. -/
def nvmlDeviceGetHandleByIndex_v2 (log : Bool) (s : NvmlState)
    (index : Nat) (device : Ptr) : OpOut :=
  let t := LOG log "nvmlDeviceGetHandleByIndex_v2" "enter"
  if !s.g_initialized then
    { ret := .errorUninitialized, writes := [], state := s, trace := t }
  else if FAKE_GPU_COUNT ≤ index then
    { ret := .errorInvalidArgument, writes := [], state := s, trace := t }
  else
    { ret := .success
    , writes := [(device, .handle (s.g_fake_gpus.getD index zeroGpu).handle)]
    , state := s
    , trace := t ++ LOG log "nvmlDeviceGetHandleByIndex_v2" "exit" }

/-- nvmlDeviceGetName: casts the handle to a record pointer and strncpys its
name field; no validation of the handle beyond the flag check. -/
def nvmlDeviceGetName (log : Bool) (s : NvmlState)
    (device : Nat) (name : Ptr) (length : Nat) : OpOut :=
  let t := LOG log "nvmlDeviceGetName" "enter"
  if !s.g_initialized then
    { ret := .errorUninitialized, writes := [], state := s, trace := t }
  else
    { ret := .success
    , writes := [(name, .bytes (strncpy (derefGpu s device).name length))]
    , state := s
    , trace := t ++ LOG log "nvmlDeviceGetName" "exit" }

/-- nvmlDeviceGetUUID: strncpy of the record's uuid field. -/
def nvmlDeviceGetUUID (log : Bool) (s : NvmlState)
    (device : Nat) (uuid : Ptr) (length : Nat) : OpOut :=
  let t := LOG log "nvmlDeviceGetUUID" "enter"
  if !s.g_initialized then
    { ret := .errorUninitialized, writes := [], state := s, trace := t }
  else
    { ret := .success
    , writes := [(uuid, .bytes (strncpy (derefGpu s device).uuid length))]
    , state := s
    , trace := t ++ LOG log "nvmlDeviceGetUUID" "exit" }

/-- nvmlDeviceGetPciInfo: memcpy of the record's pci field. -/
def nvmlDeviceGetPciInfo (log : Bool) (s : NvmlState)
    (device : Nat) (pci : Ptr) : OpOut :=
  let t := LOG log "nvmlDeviceGetPciInfo" "enter"
  if !s.g_initialized then
    { ret := .errorUninitialized, writes := [], state := s, trace := t }
  else
    { ret := .success
    , writes := [(pci, .pciInfo (derefGpu s device).pci)]
    , state := s
    , trace := t ++ LOG log "nvmlDeviceGetPciInfo" "exit" }

/-- nvmlDeviceGetCudaComputeCapability: rejects a null output pointer (either
one) before writing; on success writes 7 then 5. -/
def nvmlDeviceGetCudaComputeCapability (log : Bool) (s : NvmlState)
    (device : Nat) (major minor : Ptr) : OpOut :=
  let t := LOG log "nvmlDeviceGetCudaComputeCapability" "enter"
  if !s.g_initialized then
    { ret := .errorUninitialized, writes := [], state := s, trace := t }
  else if major = Ptr.null ∨ minor = Ptr.null then
    { ret := .errorInvalidArgument, writes := [], state := s, trace := t }
  else
    { ret := .success
    , writes := [(major, .int 7), (minor, .int 5)]
    , state := s
    , trace := t ++ LOG log "nvmlDeviceGetCudaComputeCapability" "exit" }

/-- nvmlDeviceGetBrand: unconditional store of NVML_BRAND_TESLA, no null
check. -/
def nvmlDeviceGetBrand (log : Bool) (s : NvmlState)
    (device : Nat) (type : Ptr) : OpOut :=
  let t := LOG log "nvmlDeviceGetBrand" "enter"
  if !s.g_initialized then
    { ret := .errorUninitialized, writes := [], state := s, trace := t }
  else
    { ret := .success
    , writes := [(type, .uint NVML_BRAND_TESLA)]
    , state := s
    , trace := t ++ LOG log "nvmlDeviceGetBrand" "exit" }

/-- nvmlDeviceGetMinorNumber: stores the record's index field, no null
check and no handle validation. -/
def nvmlDeviceGetMinorNumber (log : Bool) (s : NvmlState)
    (device : Nat) (minorNumber : Ptr) : OpOut :=
  let t := LOG log "nvmlDeviceGetMinorNumber" "enter"
  if !s.g_initialized then
    { ret := .errorUninitialized, writes := [], state := s, trace := t }
  else
    { ret := .success
    , writes := [(minorNumber, .uint (derefGpu s device).index)]
    , state := s
    , trace := t ++ LOG log "nvmlDeviceGetMinorNumber" "exit" }

/-- nvmlDeviceGetMigCapability: null-checks both outputs, then writes 0, 0. -/
def nvmlDeviceGetMigCapability (log : Bool) (s : NvmlState)
    (device : Nat) (isMigCapable isMigGpu : Ptr) : OpOut :=
  let t := LOG log "nvmlDeviceGetMigCapability" "enter"
  if !s.g_initialized then
    { ret := .errorUninitialized, writes := [], state := s, trace := t }
  else if isMigCapable = Ptr.null ∨ isMigGpu = Ptr.null then
    { ret := .errorInvalidArgument, writes := [], state := s, trace := t }
  else
    { ret := .success
    , writes := [(isMigCapable, .uint 0), (isMigGpu, .uint 0)]
    , state := s
    , trace := t ++ LOG log "nvmlDeviceGetMigCapability" "exit" }

/-- nvmlDeviceGetMigMode: null-checks both outputs, then writes DISABLED to
both. -/
def nvmlDeviceGetMigMode (log : Bool) (s : NvmlState)
    (device : Nat) (currentMode pendingMode : Ptr) : OpOut :=
  let t := LOG log "nvmlDeviceGetMigMode" "enter"
  if !s.g_initialized then
    { ret := .errorUninitialized, writes := [], state := s, trace := t }
  else if currentMode = Ptr.null ∨ pendingMode = Ptr.null then
    { ret := .errorInvalidArgument, writes := [], state := s, trace := t }
  else
    { ret := .success
    , writes := [ (currentMode, .uint NVML_FEATURE_DISABLED)
                , (pendingMode, .uint NVML_FEATURE_DISABLED) ]
    , state := s
    , trace := t ++ LOG log "nvmlDeviceGetMigMode" "exit" }

/-- Weak alias nvmlInit = nvmlInit_v2. -/
def nvmlInit (log : Bool) (s : NvmlState) : OpOut := nvmlInit_v2 log s

/-- Weak alias nvmlDeviceGetCount = nvmlDeviceGetCount_v2. -/
def nvmlDeviceGetCount (log : Bool) (s : NvmlState) (deviceCount : Ptr) :
    OpOut := nvmlDeviceGetCount_v2 log s deviceCount

/-- Weak alias nvmlDeviceGetHandleByIndex = nvmlDeviceGetHandleByIndex_v2. -/
def nvmlDeviceGetHandleByIndex (log : Bool) (s : NvmlState)
    (index : Nat) (device : Ptr) : OpOut :=
  nvmlDeviceGetHandleByIndex_v2 log s index device

/-- A convenient reachable initialized state: the state after one successful
nvmlInit_v2 from process start. -/
def initedState : NvmlState := (nvmlInit_v2 false initialState).state

/-- strncpy writes exactly n bytes in total, never more. -/
theorem strncpy_length (src : List Nat) (n : Nat) :
    (strncpy src n).length = n := by
  simp [strncpy]

/-- For a source with no zero byte, the strncpy output contains a zero byte
(a null terminator) exactly when the buffer length exceeds the source
length. -/
theorem strncpy_null_iff (src : List Nat) (n : Nat)
    (hnz : ∀ x ∈ src, x ≠ 0) :
    (0 : Nat) ∈ strncpy src n ↔ src.length < n := by
  simp only [strncpy, List.mem_map, List.mem_range]
  constructor
  · rintro ⟨i, hin, hz⟩
    by_contra hle
    push_neg at hle
    have hi : i < src.length := lt_of_lt_of_le hin hle
    rw [List.getD_eq_getElem src 0 hi] at hz
    exact hnz _ (List.getElem_mem hi) hz
  · intro h
    exact ⟨src.length, h, List.getD_eq_default src 0 (le_refl _)⟩

/-- Slot i of the populated registry holds the record built for index i. -/
theorem populatedRegistry_getD (i : Nat) (hi : i < FAKE_GPU_COUNT) :
    populatedRegistry.getD i zeroGpu = mkFakeGpu i := by
  have h4 : i < 4 := hi
  interval_cases i <;> rfl

/-- C1: counterexample.  After a successful Initialize, GetDriverVersion with
buffer length 4 stores exactly the four bytes 53, 51, 53, 46 ("535.") into
the caller buffer: four source bytes rather than at most three plus a
terminator, and no null byte anywhere within the first length = 4 bytes.
The claim's truncate-and-terminate policy therefore fails at length 4. -/
theorem C1_counterexample :
    (nvmlSystemGetDriverVersion false initedState (Ptr.valid 0) 4).writes =
      [(Ptr.valid 0, Val.bytes [53, 51, 53, 46])] ∧
    (0 : Nat) ∉ [53, 51, 53, 46] := by
  decide

/-- C1 (amended): every string-output operation (GetDriverVersion,
GetDeviceName, GetDeviceUUID) with buffer length len stores exactly len
bytes, computed by strncpy: the first min(source length, len) source bytes
followed by zero padding.  It never writes past len bytes, and the stored
buffer holds a null terminator within the first len bytes iff the fixed
source string (10 bytes for the driver version, 15 bytes for the name and
for each UUID) is strictly shorter than len; for len at most the source
length the buffer is left without a null terminator. -/
theorem C1_buffer_fill (log : Bool) (s : NvmlState) (p : Ptr) (len dev : Nat)
    (hreg : s.g_fake_gpus = populatedRegistry)
    (hinit : s.g_initialized = true)
    (hdev : dev < FAKE_GPU_COUNT) :
    ((nvmlSystemGetDriverVersion log s p len).writes =
       [(p, Val.bytes (strncpy (strBytes FAKE_DRIVER_VERSION) len))]) ∧
    ((nvmlDeviceGetName log s dev p len).writes =
       [(p, Val.bytes (strncpy (strBytes FAKE_GPU_NAME) len))]) ∧
    ((nvmlDeviceGetUUID log s dev p len).writes =
       [(p, Val.bytes
          (strncpy (strBytes ("GPU-" ++ toString dev ++ "-FAKE-UUID")) len))]) ∧
    (∀ src : List Nat, (strncpy src len).length = len) ∧
    ((0 : Nat) ∈ strncpy (strBytes FAKE_DRIVER_VERSION) len ↔ 10 < len) ∧
    ((0 : Nat) ∈ strncpy (strBytes FAKE_GPU_NAME) len ↔ 15 < len) ∧
    ((0 : Nat) ∈ strncpy (strBytes ("GPU-" ++ toString dev ++ "-FAKE-UUID")) len
       ↔ 15 < len) := by
  have hd := populatedRegistry_getD dev hdev
  have key : ∀ (src : List Nat) (m : Nat), src.length = m → (∀ x ∈ src, x ≠ 0) →
      ((0 : Nat) ∈ strncpy src len ↔ m < len) := by
    intro src m hl hnz
    rw [strncpy_null_iff src len hnz, hl]
  refine ⟨?_, ?_, ?_, fun src => strncpy_length src len, ?_, ?_, ?_⟩
  · simp [nvmlSystemGetDriverVersion, hinit]
  · simp only [nvmlDeviceGetName, hinit, derefGpu, hreg, hd]
    norm_num
    rfl
  · simp only [nvmlDeviceGetUUID, hinit, derefGpu, hreg, hd]
    norm_num
    have h4 : dev < 4 := hdev
    interval_cases dev <;> rfl
  · exact key (strBytes FAKE_DRIVER_VERSION) 10 (by decide) (by decide)
  · exact key (strBytes FAKE_GPU_NAME) 15 (by decide) (by decide)
  · have h4 : dev < 4 := hdev
    interval_cases dev <;> exact key _ 15 (by decide) (by decide)

/-- C1 (witness): the amended buffer-fill theorem applied after Initialize,
at device 0 with buffer length 16. -/
theorem C1_buffer_fill_witness :
    initedState.g_fake_gpus = populatedRegistry ∧
    initedState.g_initialized = true ∧
    0 < FAKE_GPU_COUNT ∧
    (nvmlSystemGetDriverVersion false initedState (Ptr.valid 0) 16).writes =
      [(Ptr.valid 0, Val.bytes (strncpy (strBytes FAKE_DRIVER_VERSION) 16))] :=
  ⟨rfl, rfl, by decide,
    (C1_buffer_fill false initedState (Ptr.valid 0) 16 0 rfl rfl (by decide)).1⟩

/-- C2: counterexample.  The codes for insufficient power (8) and timeout
(10) are members of the closed error enumeration, yet nvmlErrorString maps
each of them to exactly the generic "Unknown Error" label that an
unrecognized code such as 123456 receives — the switch has no case for
them — rather than a per-code string. -/
theorem C2_counterexample :
    (nvmlErrorString false NvmlReturn.errorInsufficientPower.code).1 =
      "Unknown Error" ∧
    (nvmlErrorString false NvmlReturn.errorTimeout.code).1 = "Unknown Error" ∧
    (nvmlErrorString false 123456).1 = "Unknown Error" := by
  decide

/-- C2 (amended): TranslateError consults no state (it works uninitialized)
and always returns a string.  It returns a distinct fixed string for each of
the codes success (0), uninitialized (1), invalid argument (2), not
supported (3), no permission (4), already initialized (5), not found (6),
insufficient size (7), driver not loaded (9) and function not found (13);
every other integer code — including the enumeration members insufficient
power (8), timeout (10) and unknown (999) — yields the generic label
"Unknown Error". -/
theorem C2_error_string (log : Bool) (c : Int)
    (hc : c ∉ ([0, 1, 2, 3, 4, 5, 6, 7, 9, 13] : List Int)) :
    (nvmlErrorString log 0).1 = "Success" ∧
    (nvmlErrorString log 1).1 = "Uninitialized" ∧
    (nvmlErrorString log 2).1 = "Invalid Argument" ∧
    (nvmlErrorString log 3).1 = "Not Supported" ∧
    (nvmlErrorString log 4).1 = "No Permission" ∧
    (nvmlErrorString log 5).1 = "Already Initialized" ∧
    (nvmlErrorString log 6).1 = "Not Found" ∧
    (nvmlErrorString log 7).1 = "Insufficient Size" ∧
    (nvmlErrorString log 9).1 = "Driver Not Loaded" ∧
    (nvmlErrorString log 13).1 = "Function Not Found" ∧
    (nvmlErrorString log c).1 = "Unknown Error" := by
  simp only [List.mem_cons, List.not_mem_nil, or_false, not_or] at hc
  obtain ⟨h0, h1, h2, h3, h4, h5, h6, h7, h9, h13⟩ := hc
  refine ⟨rfl, rfl, rfl, rfl, rfl, rfl, rfl, rfl, rfl, rfl, ?_⟩
  simp [nvmlErrorString, errorStringSwitch, h0, h1, h2, h3, h4, h5, h6, h7,
    h9, h13]

/-- C2 (witness): the amended error-string theorem applied at code 999, the
value of NVML_ERROR_UNKNOWN. -/
theorem C2_error_string_witness :
    (999 : Int) ∉ ([0, 1, 2, 3, 4, 5, 6, 7, 9, 13] : List Int) ∧
    (nvmlErrorString false 999).1 = "Unknown Error" :=
  ⟨by decide,
    (C2_error_string false 999 (by decide)).2.2.2.2.2.2.2.2.2.2⟩

/-- C4: counterexample.  The claim quantifies over every state, but in the
state reached after one successful Initialize — a state its "from any
state" covers — the first of two consecutive Initialize calls returns
AlreadyInitialized, not success, so "Initialize twice in a row yields
success then AlreadyInitialized" fails there. -/
theorem C4_counterexample :
    (nvmlInit_v2 false initedState).ret = NvmlReturn.errorAlreadyInitialized ∧
    NvmlReturn.errorAlreadyInitialized ≠ NvmlReturn.success := by
  decide

/-- C4 (amended): the initialization flag starts false.  From any state in
which the flag is false, Initialize twice in a row yields success then
AlreadyInitialized; from any state in which the flag is true, Shutdown
twice in a row yields success then Uninitialized.  Initialize fails exactly
when the flag is already true, Shutdown fails exactly when the flag is
already false, and a failed call leaves the whole state (flag and registry)
unchanged. -/
theorem C4_lifecycle (log1 log2 : Bool) (s : NvmlState) :
    initialState.g_initialized = false ∧
    (s.g_initialized = false →
      (nvmlInit_v2 log1 s).ret = NvmlReturn.success ∧
      (nvmlInit_v2 log2 (nvmlInit_v2 log1 s).state).ret =
        NvmlReturn.errorAlreadyInitialized) ∧
    (s.g_initialized = true →
      (nvmlShutdown log1 s).ret = NvmlReturn.success ∧
      (nvmlShutdown log2 (nvmlShutdown log1 s).state).ret =
        NvmlReturn.errorUninitialized) ∧
    ((nvmlInit_v2 log1 s).ret ≠ NvmlReturn.success ↔ s.g_initialized = true) ∧
    ((nvmlShutdown log1 s).ret ≠ NvmlReturn.success ↔
      s.g_initialized = false) ∧
    (s.g_initialized = true → (nvmlInit_v2 log1 s).state = s) ∧
    (s.g_initialized = false → (nvmlShutdown log1 s).state = s) := by
  cases hb : s.g_initialized <;>
    simp [nvmlInit_v2, nvmlShutdown, initialState, hb]

/-- C4 (witness): the amended lifecycle theorem applied at the process start
state, exercising the Initialize-twice branch. -/
theorem C4_lifecycle_witness :
    initialState.g_initialized = false ∧
    (nvmlInit_v2 false initialState).ret = NvmlReturn.success ∧
    (nvmlInit_v2 false (nvmlInit_v2 false initialState).state).ret =
      NvmlReturn.errorAlreadyInitialized :=
  ⟨(C4_lifecycle false false initialState).1,
    ((C4_lifecycle false false initialState).2.1 (by decide)).1,
    ((C4_lifecycle false false initialState).2.1 (by decide)).2⟩

/-- C3: in any state with the initialization flag true, every per-device
query (GetDeviceName, GetDeviceUUID, GetPciInfo, GetMinorNumber, GetBrand)
returns success for every handle value whatsoever — the handle argument is
never compared against the current session's registry, so a stale handle
issued before a prior Shutdown (or any forged value) is accepted silently;
only the initialization flag is checked. -/
theorem C3_no_handle_validation (log : Bool) (s : NvmlState) (dev len : Nat)
    (p : Ptr) (hinit : s.g_initialized = true) :
    (nvmlDeviceGetName log s dev p len).ret = NvmlReturn.success ∧
    (nvmlDeviceGetUUID log s dev p len).ret = NvmlReturn.success ∧
    (nvmlDeviceGetPciInfo log s dev p).ret = NvmlReturn.success ∧
    (nvmlDeviceGetMinorNumber log s dev p).ret = NvmlReturn.success ∧
    (nvmlDeviceGetBrand log s dev p).ret = NvmlReturn.success := by
  simp [nvmlDeviceGetName, nvmlDeviceGetUUID, nvmlDeviceGetPciInfo,
    nvmlDeviceGetMinorNumber, nvmlDeviceGetBrand, hinit]

/-- C3 (witness): the theorem applied in a second session (Initialize,
Shutdown, Initialize again) to handle value 1, a handle issued during the
first session. -/
theorem C3_no_handle_validation_witness :
    (nvmlInit_v2 false (nvmlShutdown false initedState).state).state.g_initialized
      = true ∧
    (nvmlDeviceGetName false
      (nvmlInit_v2 false (nvmlShutdown false initedState).state).state
      1 (Ptr.valid 0) 8).ret = NvmlReturn.success :=
  ⟨by decide,
    (C3_no_handle_validation false
      (nvmlInit_v2 false (nvmlShutdown false initedState).state).state
      1 8 (Ptr.valid 0) (by decide)).1⟩

/-- C5: GetHandleByIndex returns Uninitialized when the flag is false; with
the flag true it returns success and stores the indexed record's handle for
every index below the device count, and returns InvalidArgument storing
nothing for the count itself and every larger value (the argument is an
unsigned int, so the unsigned encoding of any negative value lands in this
branch as well). -/
theorem C5_handle_by_index (log : Bool) (s : NvmlState) (index : Nat)
    (p : Ptr) :
    (s.g_initialized = false →
      (nvmlDeviceGetHandleByIndex_v2 log s index p).ret =
        NvmlReturn.errorUninitialized ∧
      (nvmlDeviceGetHandleByIndex_v2 log s index p).writes = []) ∧
    (s.g_initialized = true → index < FAKE_GPU_COUNT →
      (nvmlDeviceGetHandleByIndex_v2 log s index p).ret =
        NvmlReturn.success ∧
      (nvmlDeviceGetHandleByIndex_v2 log s index p).writes =
        [(p, Val.handle (s.g_fake_gpus.getD index zeroGpu).handle)]) ∧
    (s.g_initialized = true → FAKE_GPU_COUNT ≤ index →
      (nvmlDeviceGetHandleByIndex_v2 log s index p).ret =
        NvmlReturn.errorInvalidArgument ∧
      (nvmlDeviceGetHandleByIndex_v2 log s index p).writes = []) := by
  refine ⟨fun hb => ?_, fun hb hlt => ?_, fun hb hge => ?_⟩
  · simp [nvmlDeviceGetHandleByIndex_v2, hb]
  · simp [nvmlDeviceGetHandleByIndex_v2, hb, Nat.not_le_of_lt hlt]
  · simp [nvmlDeviceGetHandleByIndex_v2, hb, hge]

/-- C5 (witness): the theorem applied after Initialize at index 0 (the
in-range branch). -/
theorem C5_handle_by_index_witness :
    initedState.g_initialized = true ∧
    0 < FAKE_GPU_COUNT ∧
    (nvmlDeviceGetHandleByIndex_v2 false initedState 0 (Ptr.valid 0)).ret =
      NvmlReturn.success ∧
    (nvmlDeviceGetHandleByIndex_v2 false initedState 0 (Ptr.valid 0)).writes =
      [(Ptr.valid 0,
        Val.handle (initedState.g_fake_gpus.getD 0 zeroGpu).handle)] :=
  ⟨rfl, by decide,
    ((C5_handle_by_index false initedState 0 (Ptr.valid 0)).2.1 rfl
      (by decide)).1,
    ((C5_handle_by_index false initedState 0 (Ptr.valid 0)).2.1 rfl
      (by decide)).2⟩

/-- C6: round trip.  From any state with the flag false, Initialize
succeeds; then for every index below the device count, GetHandleByIndex
succeeds and stores the handle of record index (which is the record's own
address, abstracted as the slot number), and GetMinorNumber applied to that
stored handle succeeds and writes back exactly the index. -/
theorem C6_round_trip (log1 log2 log3 : Bool) (s : NvmlState) (i : Nat)
    (p q : Ptr) (hflag : s.g_initialized = false) (hi : i < FAKE_GPU_COUNT) :
    (nvmlInit_v2 log1 s).ret = NvmlReturn.success ∧
    (nvmlDeviceGetHandleByIndex_v2 log2 (nvmlInit_v2 log1 s).state i p).ret =
      NvmlReturn.success ∧
    (nvmlDeviceGetHandleByIndex_v2 log2 (nvmlInit_v2 log1 s).state i p).writes
      = [(p, Val.handle (mkFakeGpu i).handle)] ∧
    (nvmlDeviceGetMinorNumber log3 (nvmlInit_v2 log1 s).state
      (mkFakeGpu i).handle q).ret = NvmlReturn.success ∧
    (nvmlDeviceGetMinorNumber log3 (nvmlInit_v2 log1 s).state
      (mkFakeGpu i).handle q).writes = [(q, Val.uint i)] := by
  have hd := populatedRegistry_getD i hi
  simp only [List.getD_eq_getElem?_getD] at hd
  have hhandle : (mkFakeGpu i).handle = i := rfl
  have hindex : (mkFakeGpu i).index = i := rfl
  refine ⟨?_, ?_, ?_, ?_, ?_⟩ <;>
    simp [nvmlInit_v2, nvmlDeviceGetHandleByIndex_v2, nvmlDeviceGetMinorNumber,
      derefGpu, hflag, Nat.not_le_of_lt hi, hd, hhandle, hindex]

/-- C6 (witness): the round-trip theorem applied from the process start
state at index 2. -/
theorem C6_round_trip_witness :
    initialState.g_initialized = false ∧
    2 < FAKE_GPU_COUNT ∧
    (nvmlDeviceGetMinorNumber false (nvmlInit_v2 false initialState).state
      (mkFakeGpu 2).handle (Ptr.valid 7)).writes = [(Ptr.valid 7, Val.uint 2)] :=
  ⟨rfl, by decide,
    (C6_round_trip false false false initialState 2 (Ptr.valid 7) (Ptr.valid 7)
      rfl (by decide)).2.2.2.2⟩

/-- C7: in any state with the initialization flag false, every query
operation except error-string translation returns Uninitialized regardless
of its arguments and stores nothing through any of its output pointers. -/
theorem C7_uninitialized_uniform (log : Bool) (s : NvmlState)
    (index dev len : Nat) (p q : Ptr) (hflag : s.g_initialized = false) :
    ((nvmlSystemGetDriverVersion log s p len).ret =
        NvmlReturn.errorUninitialized ∧
      (nvmlSystemGetDriverVersion log s p len).writes = []) ∧
    ((nvmlSystemGetCudaDriverVersion log s p).ret =
        NvmlReturn.errorUninitialized ∧
      (nvmlSystemGetCudaDriverVersion log s p).writes = []) ∧
    ((nvmlDeviceGetCount_v2 log s p).ret = NvmlReturn.errorUninitialized ∧
      (nvmlDeviceGetCount_v2 log s p).writes = []) ∧
    ((nvmlDeviceGetHandleByIndex_v2 log s index p).ret =
        NvmlReturn.errorUninitialized ∧
      (nvmlDeviceGetHandleByIndex_v2 log s index p).writes = []) ∧
    ((nvmlDeviceGetName log s dev p len).ret =
        NvmlReturn.errorUninitialized ∧
      (nvmlDeviceGetName log s dev p len).writes = []) ∧
    ((nvmlDeviceGetUUID log s dev p len).ret =
        NvmlReturn.errorUninitialized ∧
      (nvmlDeviceGetUUID log s dev p len).writes = []) ∧
    ((nvmlDeviceGetPciInfo log s dev p).ret =
        NvmlReturn.errorUninitialized ∧
      (nvmlDeviceGetPciInfo log s dev p).writes = []) ∧
    ((nvmlDeviceGetCudaComputeCapability log s dev p q).ret =
        NvmlReturn.errorUninitialized ∧
      (nvmlDeviceGetCudaComputeCapability log s dev p q).writes = []) ∧
    ((nvmlDeviceGetBrand log s dev p).ret = NvmlReturn.errorUninitialized ∧
      (nvmlDeviceGetBrand log s dev p).writes = []) ∧
    ((nvmlDeviceGetMinorNumber log s dev p).ret =
        NvmlReturn.errorUninitialized ∧
      (nvmlDeviceGetMinorNumber log s dev p).writes = []) ∧
    ((nvmlDeviceGetMigCapability log s dev p q).ret =
        NvmlReturn.errorUninitialized ∧
      (nvmlDeviceGetMigCapability log s dev p q).writes = []) ∧
    ((nvmlDeviceGetMigMode log s dev p q).ret =
        NvmlReturn.errorUninitialized ∧
      (nvmlDeviceGetMigMode log s dev p q).writes = []) := by
  simp [nvmlSystemGetDriverVersion, nvmlSystemGetCudaDriverVersion,
    nvmlDeviceGetCount_v2, nvmlDeviceGetHandleByIndex_v2, nvmlDeviceGetName,
    nvmlDeviceGetUUID, nvmlDeviceGetPciInfo,
    nvmlDeviceGetCudaComputeCapability, nvmlDeviceGetBrand,
    nvmlDeviceGetMinorNumber, nvmlDeviceGetMigCapability,
    nvmlDeviceGetMigMode, hflag]

/-- C7 (witness): the theorem applied in the state reached by Initialize
followed by Shutdown, exercising the GetDeviceCount conjunct. -/
theorem C7_uninitialized_uniform_witness :
    (nvmlShutdown false initedState).state.g_initialized = false ∧
    (nvmlDeviceGetCount_v2 false (nvmlShutdown false initedState).state
      (Ptr.valid 0)).ret = NvmlReturn.errorUninitialized :=
  ⟨by decide,
    ((C7_uninitialized_uniform false (nvmlShutdown false initedState).state
      0 0 0 (Ptr.valid 0) (Ptr.valid 1) (by decide)).2.2.1).1⟩

/-- C8: with the flag true and exactly one output pointer null, the
three-pointer-checking operations reject the call: GetComputeCapability,
GetMigCapability and GetMigMode each return InvalidArgument and store
nothing — in particular nothing through the non-null output — whichever of
their two outputs is the null one. -/
theorem C8_null_output_rejected (log : Bool) (s : NvmlState) (dev : Nat)
    (p : Ptr) (hinit : s.g_initialized = true) (hp : p ≠ Ptr.null) :
    ((nvmlDeviceGetCudaComputeCapability log s dev p Ptr.null).ret =
        NvmlReturn.errorInvalidArgument ∧
      (nvmlDeviceGetCudaComputeCapability log s dev p Ptr.null).writes = []) ∧
    ((nvmlDeviceGetCudaComputeCapability log s dev Ptr.null p).ret =
        NvmlReturn.errorInvalidArgument ∧
      (nvmlDeviceGetCudaComputeCapability log s dev Ptr.null p).writes = []) ∧
    ((nvmlDeviceGetMigCapability log s dev p Ptr.null).ret =
        NvmlReturn.errorInvalidArgument ∧
      (nvmlDeviceGetMigCapability log s dev p Ptr.null).writes = []) ∧
    ((nvmlDeviceGetMigCapability log s dev Ptr.null p).ret =
        NvmlReturn.errorInvalidArgument ∧
      (nvmlDeviceGetMigCapability log s dev Ptr.null p).writes = []) ∧
    ((nvmlDeviceGetMigMode log s dev p Ptr.null).ret =
        NvmlReturn.errorInvalidArgument ∧
      (nvmlDeviceGetMigMode log s dev p Ptr.null).writes = []) ∧
    ((nvmlDeviceGetMigMode log s dev Ptr.null p).ret =
        NvmlReturn.errorInvalidArgument ∧
      (nvmlDeviceGetMigMode log s dev Ptr.null p).writes = []) := by
  simp [nvmlDeviceGetCudaComputeCapability, nvmlDeviceGetMigCapability,
    nvmlDeviceGetMigMode, hinit]

/-- C8 (witness): the theorem applied after Initialize with the minor output
of GetComputeCapability null and the major output non-null. -/
theorem C8_null_output_rejected_witness :
    initedState.g_initialized = true ∧
    Ptr.valid 3 ≠ Ptr.null ∧
    (nvmlDeviceGetCudaComputeCapability false initedState 0
      (Ptr.valid 3) Ptr.null).ret = NvmlReturn.errorInvalidArgument ∧
    (nvmlDeviceGetCudaComputeCapability false initedState 0
      (Ptr.valid 3) Ptr.null).writes = [] :=
  ⟨rfl, by decide,
    (C8_null_output_rejected false initedState 0 (Ptr.valid 3) rfl
      (by decide)).1.1,
    (C8_null_output_rejected false initedState 0 (Ptr.valid 3) rfl
      (by decide)).1.2⟩

/-- C9: two-run noninterference with respect to the FAKE_NVML_LOG toggle.
For every entry point, every state and every argument list, the observable
outcome — return code, stores through output pointers, and resulting state
(and for TranslateError the returned string) — is identical for any two
values of the toggle; only the emitted trace may differ. -/
theorem C9_log_noninterference (log1 log2 : Bool) (s : NvmlState) (c : Int)
    (index dev len : Nat) (p q : Ptr) :
    obs (nvmlInit_v2 log1 s) = obs (nvmlInit_v2 log2 s) ∧
    obs (nvmlShutdown log1 s) = obs (nvmlShutdown log2 s) ∧
    (nvmlErrorString log1 c).1 = (nvmlErrorString log2 c).1 ∧
    obs (nvmlSystemGetDriverVersion log1 s p len) =
      obs (nvmlSystemGetDriverVersion log2 s p len) ∧
    obs (nvmlSystemGetCudaDriverVersion log1 s p) =
      obs (nvmlSystemGetCudaDriverVersion log2 s p) ∧
    obs (nvmlDeviceGetCount_v2 log1 s p) =
      obs (nvmlDeviceGetCount_v2 log2 s p) ∧
    obs (nvmlDeviceGetHandleByIndex_v2 log1 s index p) =
      obs (nvmlDeviceGetHandleByIndex_v2 log2 s index p) ∧
    obs (nvmlDeviceGetName log1 s dev p len) =
      obs (nvmlDeviceGetName log2 s dev p len) ∧
    obs (nvmlDeviceGetUUID log1 s dev p len) =
      obs (nvmlDeviceGetUUID log2 s dev p len) ∧
    obs (nvmlDeviceGetPciInfo log1 s dev p) =
      obs (nvmlDeviceGetPciInfo log2 s dev p) ∧
    obs (nvmlDeviceGetCudaComputeCapability log1 s dev p q) =
      obs (nvmlDeviceGetCudaComputeCapability log2 s dev p q) ∧
    obs (nvmlDeviceGetBrand log1 s dev p) =
      obs (nvmlDeviceGetBrand log2 s dev p) ∧
    obs (nvmlDeviceGetMinorNumber log1 s dev p) =
      obs (nvmlDeviceGetMinorNumber log2 s dev p) ∧
    obs (nvmlDeviceGetMigCapability log1 s dev p q) =
      obs (nvmlDeviceGetMigCapability log2 s dev p q) ∧
    obs (nvmlDeviceGetMigMode log1 s dev p q) =
      obs (nvmlDeviceGetMigMode log2 s dev p q) ∧
    obs (nvmlInit log1 s) = obs (nvmlInit log2 s) ∧
    obs (nvmlDeviceGetCount log1 s p) = obs (nvmlDeviceGetCount log2 s p) ∧
    obs (nvmlDeviceGetHandleByIndex log1 s index p) =
      obs (nvmlDeviceGetHandleByIndex log2 s index p) := by
  refine ⟨?_, ?_, ?_, ?_, ?_, ?_, ?_, ?_, ?_, ?_, ?_, ?_, ?_, ?_, ?_, ?_,
    ?_, ?_⟩ <;>
    simp only [obs, nvmlInit, nvmlDeviceGetCount, nvmlDeviceGetHandleByIndex,
      nvmlInit_v2, nvmlShutdown, nvmlErrorString, nvmlSystemGetDriverVersion,
      nvmlSystemGetCudaDriverVersion, nvmlDeviceGetCount_v2,
      nvmlDeviceGetHandleByIndex_v2, nvmlDeviceGetName, nvmlDeviceGetUUID,
      nvmlDeviceGetPciInfo, nvmlDeviceGetCudaComputeCapability,
      nvmlDeviceGetBrand, nvmlDeviceGetMinorNumber,
      nvmlDeviceGetMigCapability, nvmlDeviceGetMigMode] <;>
    first
    | rfl
    | (split_ifs <;> rfl)

/-- C10: with the flag true, GetDeviceCount, GetCudaDriverVersion, GetBrand
and GetMinorNumber store through their output pointer for every pointer
value — the null pointer included, which is therefore dereferenced rather
than rejected — and always return success, never InvalidArgument; by
contrast the pointer-checking operations reject a null output with
InvalidArgument. -/
theorem C10_unconditional_write (log : Bool) (s : NvmlState) (dev : Nat)
    (p : Ptr) (hinit : s.g_initialized = true) :
    ((nvmlDeviceGetCount_v2 log s p).ret = NvmlReturn.success ∧
      (nvmlDeviceGetCount_v2 log s p).writes =
        [(p, Val.uint FAKE_GPU_COUNT)]) ∧
    ((nvmlSystemGetCudaDriverVersion log s p).ret = NvmlReturn.success ∧
      (nvmlSystemGetCudaDriverVersion log s p).writes =
        [(p, Val.int FAKE_CUDA_VERSION)]) ∧
    ((nvmlDeviceGetBrand log s dev p).ret = NvmlReturn.success ∧
      (nvmlDeviceGetBrand log s dev p).writes =
        [(p, Val.uint NVML_BRAND_TESLA)]) ∧
    ((nvmlDeviceGetMinorNumber log s dev p).ret = NvmlReturn.success ∧
      (nvmlDeviceGetMinorNumber log s dev p).writes =
        [(p, Val.uint (derefGpu s dev).index)]) ∧
    NvmlReturn.success ≠ NvmlReturn.errorInvalidArgument ∧
    ((nvmlDeviceGetCudaComputeCapability log s dev Ptr.null Ptr.null).ret =
        NvmlReturn.errorInvalidArgument ∧
      (nvmlDeviceGetCudaComputeCapability log s dev Ptr.null Ptr.null).writes
        = []) ∧
    (nvmlDeviceGetMigCapability log s dev Ptr.null Ptr.null).ret =
      NvmlReturn.errorInvalidArgument ∧
    (nvmlDeviceGetMigMode log s dev Ptr.null Ptr.null).ret =
      NvmlReturn.errorInvalidArgument := by
  simp [nvmlDeviceGetCount_v2, nvmlSystemGetCudaDriverVersion,
    nvmlDeviceGetBrand, nvmlDeviceGetMinorNumber,
    nvmlDeviceGetCudaComputeCapability, nvmlDeviceGetMigCapability,
    nvmlDeviceGetMigMode, hinit]

/-- C10 (witness): the theorem applied after Initialize with a null output
pointer, exercising the store through NULL by GetBrand. -/
theorem C10_unconditional_write_witness :
    initedState.g_initialized = true ∧
    (nvmlDeviceGetBrand false initedState 0 Ptr.null).ret =
      NvmlReturn.success ∧
    (nvmlDeviceGetBrand false initedState 0 Ptr.null).writes =
      [(Ptr.null, Val.uint NVML_BRAND_TESLA)] :=
  ⟨rfl,
    (C10_unconditional_write false initedState 0 Ptr.null rfl).2.2.1.1,
    (C10_unconditional_write false initedState 0 Ptr.null rfl).2.2.1.2⟩

end FakeNvml
